import Mathlib

/-!
Shallow embedding of the SQLiteTool repository's query/table construction
core (src/QueryBuilder.ts, src/TableBuilder.ts) and of the pure parts of
the facade methods in src/SQLiteTool.ts (`find` query construction,
`findPaginated` pagination arithmetic, `transaction` control flow),
together with theorems settling the spec claims about them.

JavaScript runtime values that flow into parameter lists are modelled by
the inductive `JSVal` (strings, integer numbers, booleans, null).
JavaScript's `Array.prototype.join(sep)` is modelled by `joinSep`,
`String.prototype.includes` by `strIncludes`, and array literals/spreads
by Lean lists.  Mutable `this` state becomes explicit state passing: each
fluent method is a function from builder state to builder state (or to
`Except String` state where the source method can throw).
-/

namespace SQLiteTool

/-- A JavaScript value as it appears in parameter lists and option bags. -/
inductive JSVal
  | vStr (s : String)
  | vInt (n : Int)
  | vBool (b : Bool)
  | vNull
deriving DecidableEq

/-- JavaScript `Array.prototype.join(sep)`: empty array gives `""`, a
single element gives the element, otherwise elements interleaved with the
separator. -/
def joinSep (sep : String) : List String → String
  | [] => ""
  | [a] => a
  | a :: b :: rest => a ++ sep ++ joinSep sep (b :: rest)

/-- Number of `?` placeholder characters in a string. -/
def countQ (s : String) : Nat := s.data.count '?'

/-- JavaScript `String.prototype.startsWith(pre)`. -/
def strStartsWith (s pre : String) : Bool := pre.data.isPrefixOf s.data

/-- JavaScript `String.prototype.includes(pat)`: `pat` occurs as a
contiguous substring of `s`. -/
def strIncludes (s pat : String) : Bool :=
  (List.range (s.length + 1)).any fun i =>
    (s.data.drop i).take pat.length == pat.data

/-- The result of `toSQL()` / `toCountSQL()`: SQL text plus the positional
parameter list (the source returns `{ sql, values: [...this._whereValues] }`,
the spread building a fresh array with the same elements). -/
structure SQLResult where
  sql : String
  values : List JSVal
deriving DecidableEq

/-- State of `QueryBuilder` (src/QueryBuilder.ts, fields `_tableName` …
`_joins`).  The field `_distinct` is called `distinctFlag` here because
`distinct` is also the name of the fluent method. -/
structure QueryBuilder where
  tableName : String
  selectColumns : List String := ["*"]
  whereConditions : List String := []
  whereValues : List JSVal := []
  orderByClause : String := ""
  groupByClause : String := ""
  havingClause : String := ""
  limitClause : String := ""
  offsetClause : String := ""
  distinctFlag : Bool := false
  joins : List String := []
deriving DecidableEq

/-- `new QueryBuilder(tableName)`. -/
def QueryBuilder.init (tableName : String) : QueryBuilder :=
  { tableName := tableName }

/-- `select(columns)`. -/
def QueryBuilder.select (b : QueryBuilder) (columns : List String) : QueryBuilder :=
  { b with selectColumns := columns }

/-- `distinct()`. -/
def QueryBuilder.distinct (b : QueryBuilder) : QueryBuilder :=
  { b with distinctFlag := true }

/-- `where(column, operator, value)` (`where` is a Lean keyword, hence the
prime).  Pushes `` `${column} ${operator} ?` `` and the value. -/
def QueryBuilder.where' (b : QueryBuilder) (column operator : String) (value : JSVal) :
    QueryBuilder :=
  { b with whereConditions := b.whereConditions ++ [column ++ " " ++ operator ++ " ?"],
           whereValues := b.whereValues ++ [value] }

/-- `whereIn(column, values)`: empty value list pushes the always-false
predicate `1 = 0` and no values; otherwise `column IN (?, …, ?)` plus the
values. -/
def QueryBuilder.whereIn (b : QueryBuilder) (column : String) (values : List JSVal) :
    QueryBuilder :=
  if values.length = 0 then
    { b with whereConditions := b.whereConditions ++ ["1 = 0"] }
  else
    let placeholders := joinSep ", " (values.map fun _ => "?")
    { b with whereConditions := b.whereConditions ++ [column ++ " IN (" ++ placeholders ++ ")"],
             whereValues := b.whereValues ++ values }

/-- `whereNotIn(column, values)`: empty value list returns `this`
unchanged; otherwise `column NOT IN (?, …, ?)` plus the values. -/
def QueryBuilder.whereNotIn (b : QueryBuilder) (column : String) (values : List JSVal) :
    QueryBuilder :=
  if values.length = 0 then
    b
  else
    let placeholders := joinSep ", " (values.map fun _ => "?")
    { b with whereConditions := b.whereConditions ++ [column ++ " NOT IN (" ++ placeholders ++ ")"],
             whereValues := b.whereValues ++ values }

/-- `orWhere(column, operator, value)`: with at least one accumulated
condition, pops the last one and pushes `` `${last} OR ${column} ${operator} ?` ``;
otherwise pushes a plain condition.  Either way the value is pushed. -/
def QueryBuilder.orWhere (b : QueryBuilder) (column operator : String) (value : JSVal) :
    QueryBuilder :=
  match b.whereConditions.getLast? with
  | some lastCondition =>
      { b with
        whereConditions :=
          b.whereConditions.dropLast ++
            [lastCondition ++ " OR " ++ column ++ " " ++ operator ++ " ?"],
        whereValues := b.whereValues ++ [value] }
  | none =>
      { b with
        whereConditions := [column ++ " " ++ operator ++ " ?"],
        whereValues := b.whereValues ++ [value] }

/-- `join(table, first, operator, second, type)`. -/
def QueryBuilder.join (b : QueryBuilder) (table first operator second : String)
    (ty : String := "INNER") : QueryBuilder :=
  { b with joins := b.joins ++ [ty ++ " JOIN " ++ table ++ " ON " ++ first ++ " " ++ operator ++ " " ++ second] }

/-- `orderBy(column, direction = 'ASC')`. -/
def QueryBuilder.orderBy (b : QueryBuilder) (column : String) (direction : String := "ASC") :
    QueryBuilder :=
  { b with orderByClause := "ORDER BY " ++ column ++ " " ++ direction }

/-- A `string | string[]` argument (as for `groupBy`/`orderBy` options). -/
inductive StrOrList
  | one (s : String)
  | many (l : List String)
deriving DecidableEq

/-- `Array.isArray(x) ? x.join(', ') : x`. -/
def StrOrList.render : StrOrList → String
  | .one s => s
  | .many l => joinSep ", " l

/-- `groupBy(columns)`. -/
def QueryBuilder.groupBy (b : QueryBuilder) (columns : StrOrList) : QueryBuilder :=
  { b with groupByClause := "GROUP BY " ++ columns.render }

/-- `having(condition, values = [])`. -/
def QueryBuilder.having (b : QueryBuilder) (condition : String)
    (values : List JSVal := []) : QueryBuilder :=
  { b with havingClause := "HAVING " ++ condition,
           whereValues := b.whereValues ++ values }

/-- `limit(count)`. -/
def QueryBuilder.limit (b : QueryBuilder) (count : Int) : QueryBuilder :=
  { b with limitClause := "LIMIT " ++ toString count }

/-- `offset(count)`. -/
def QueryBuilder.offset (b : QueryBuilder) (count : Int) : QueryBuilder :=
  { b with offsetClause := "OFFSET " ++ toString count }

/-- `toSQL()`: sequential string accumulation exactly as in the source,
each clause appended only when present. -/
def QueryBuilder.toSQL (b : QueryBuilder) : SQLResult :=
  let sql := "SELECT "
  let sql := if b.distinctFlag then sql ++ "DISTINCT " else sql
  let sql := sql ++ joinSep ", " b.selectColumns
  let sql := sql ++ " FROM " ++ b.tableName
  let sql := if b.joins.length > 0 then sql ++ " " ++ joinSep " " b.joins else sql
  let sql := if b.whereConditions.length > 0 then
      sql ++ " WHERE " ++ joinSep " AND " b.whereConditions else sql
  let sql := if b.groupByClause ≠ "" then sql ++ " " ++ b.groupByClause else sql
  let sql := if b.havingClause ≠ "" then sql ++ " " ++ b.havingClause else sql
  let sql := if b.orderByClause ≠ "" then sql ++ " " ++ b.orderByClause else sql
  let sql := if b.limitClause ≠ "" then sql ++ " " ++ b.limitClause else sql
  let sql := if b.offsetClause ≠ "" then sql ++ " " ++ b.offsetClause else sql
  { sql := sql, values := b.whereValues }

/-- `toCountSQL()`: `SELECT COUNT(*) as count FROM` plus joins, WHERE,
GROUP BY and HAVING only. -/
def QueryBuilder.toCountSQL (b : QueryBuilder) : SQLResult :=
  let sql := "SELECT COUNT(*) as count FROM " ++ b.tableName
  let sql := if b.joins.length > 0 then sql ++ " " ++ joinSep " " b.joins else sql
  let sql := if b.whereConditions.length > 0 then
      sql ++ " WHERE " ++ joinSep " AND " b.whereConditions else sql
  let sql := if b.groupByClause ≠ "" then sql ++ " " ++ b.groupByClause else sql
  let sql := if b.havingClause ≠ "" then sql ++ " " ++ b.havingClause else sql
  { sql := sql, values := b.whereValues }

/-- A column under construction (types.ts `ColumnBuilder`). -/
structure ColumnBuilder where
  name : String
  type : String
  modifiers : List String
deriving DecidableEq

/-- Result of `TableBuilder.build()` (types.ts `TableBuilderResult`). -/
structure TableBuilderResult where
  columns : List String
  constraints : List String
deriving DecidableEq

/-- State of `TableBuilder` (src/TableBuilder.ts).  In the source
`_currentColumn` is a reference to the most recently pushed element of
`_columns` and modifier methods mutate through it; here it is modelled as
an index into `columns`. -/
structure TableBuilder where
  tableName : String
  columns : List ColumnBuilder := []
  constraints : List String := []
  currentColumn : Option Nat := none
deriving DecidableEq

/-- Replace the element at index `i` by `f` of it (list unchanged when the
index is out of range). -/
def listModify (f : α → α) : Nat → List α → List α
  | _, [] => []
  | 0, a :: rest => f a :: rest
  | n + 1, a :: rest => a :: listModify f n rest

/-- `new TableBuilder(tableName)`. -/
def TableBuilder.init (tableName : String) : TableBuilder :=
  { tableName := tableName }

/-- Common body of the column-type methods: push a fresh column and make
it current (`this._currentColumn = {...}; this._columns.push(...)`). -/
def TableBuilder.pushColumn (b : TableBuilder) (c : ColumnBuilder) : TableBuilder :=
  { b with columns := b.columns ++ [c], currentColumn := some b.columns.length }

/-- `id(name = 'id')`. -/
def TableBuilder.id (b : TableBuilder) (name : String := "id") : TableBuilder :=
  b.pushColumn { name := name, type := "INTEGER", modifiers := ["PRIMARY KEY", "AUTOINCREMENT"] }

/-- `string(name, length?)`: a truthy `length` gives `TEXT(length)`. -/
def TableBuilder.string (b : TableBuilder) (name : String) (length : Option Nat := none) :
    TableBuilder :=
  let ty := match length with
    | some n => if n ≠ 0 then "TEXT(" ++ toString n ++ ")" else "TEXT"
    | none => "TEXT"
  b.pushColumn { name := name, type := ty, modifiers := [] }

/-- `integer(name)`. -/
def TableBuilder.integer (b : TableBuilder) (name : String) : TableBuilder :=
  b.pushColumn { name := name, type := "INTEGER", modifiers := [] }

/-- `boolean(name)` (stored as INTEGER). -/
def TableBuilder.boolean (b : TableBuilder) (name : String) : TableBuilder :=
  b.pushColumn { name := name, type := "INTEGER", modifiers := [] }

/-- Common body of the column-modifier methods: throw a State error when
no column is current, otherwise append the modifier to the current
column. -/
def TableBuilder.pushModifier (b : TableBuilder) (m : String) : Except String TableBuilder :=
  match b.currentColumn with
  | none => .error "No column selected. Call a column type method first."
  | some i =>
      .ok { b with
            columns :=
              listModify (fun c => { c with modifiers := c.modifiers ++ [m] }) i b.columns }

/-- `primaryKey()`. -/
def TableBuilder.primaryKey (b : TableBuilder) : Except String TableBuilder :=
  b.pushModifier "PRIMARY KEY"

/-- `autoIncrement()`. -/
def TableBuilder.autoIncrement (b : TableBuilder) : Except String TableBuilder :=
  b.pushModifier "AUTOINCREMENT"

/-- `notNull()`. -/
def TableBuilder.notNull (b : TableBuilder) : Except String TableBuilder :=
  b.pushModifier "NOT NULL"

/-- `unique()`. -/
def TableBuilder.unique (b : TableBuilder) : Except String TableBuilder :=
  b.pushModifier "UNIQUE"

/-- `_escapeValue(value)` on the modelled JavaScript values (`Date` and
`undefined` are not modelled; `null` maps to `NULL`). -/
def TableBuilder.escapeValue : JSVal → String
  | .vNull => "NULL"
  | .vStr s =>
      if s = "CURRENT_TIMESTAMP" then s
      else "\x27" ++ s.replace "\x27" "\x27\x27" ++ "\x27"
  | .vBool b => if b then "1" else "0"
  | .vInt n => toString n

/-- `default(value)`. -/
def TableBuilder.default (b : TableBuilder) (value : JSVal) : Except String TableBuilder :=
  b.pushModifier ("DEFAULT " ++ TableBuilder.escapeValue value)

/-- `check(expression)`. -/
def TableBuilder.check (b : TableBuilder) (expression : String) : Except String TableBuilder :=
  b.pushModifier ("CHECK (" ++ expression ++ ")")

/-- `collate(collation)`. -/
def TableBuilder.collate (b : TableBuilder) (collation : String) : Except String TableBuilder :=
  b.pushModifier ("COLLATE " ++ collation)

/-- Split a character list at every occurrence of `sep` (the pieces, in
order, without the separator). -/
def splitAtChar (sep : Char) : List Char → List (List Char)
  | [] => [[]]
  | c :: rest =>
      if c = sep then [] :: splitAtChar sep rest
      else
        match splitAtChar sep rest with
        | h :: t => (c :: h) :: t
        | [] => [[c]]

/-- JavaScript `s.split(sep)` for a one-character separator:
`"a.b".split('.') = ["a","b"]`, `"abc".split('.') = ["abc"]`,
`"".split('.') = [""]`. -/
def jsSplit (s : String) (sep : Char) : List String :=
  (splitAtChar sep s.data).map String.mk

/-- `foreignKey(columnName)`. -/
def TableBuilder.foreignKey (b : TableBuilder) (columnName : String) : TableBuilder :=
  { b with constraints := b.constraints ++ ["FOREIGN KEY (" ++ columnName ++ ")"] }

/-- `references(tableColumn)`: splits at `'.'` (a missing column part
renders as JavaScript's `undefined`), then amends the last constraint
only when it starts with `FOREIGN KEY`.  The source guard
`lastConstraint && lastConstraint.startsWith(...)` treats the empty
string as absent, which coincides with `startsWith` being false on it. -/
def TableBuilder.references (b : TableBuilder) (tableColumn : String) : TableBuilder :=
  let parts := jsSplit tableColumn '.'
  let table := parts.headD ""
  let column := match parts.drop 1 with
    | c :: _ => c
    | [] => "undefined"
  match b.constraints.getLast? with
  | none => b
  | some lastConstraint =>
      if strStartsWith lastConstraint "FOREIGN KEY" then
        { b with constraints :=
            b.constraints.dropLast ++
              [lastConstraint ++ " REFERENCES " ++ table ++ "(" ++ column ++ ")"] }
      else b

/-- `onDelete(action)`: amends the last constraint only when it contains
`REFERENCES`. -/
def TableBuilder.onDelete (b : TableBuilder) (action : String) : TableBuilder :=
  match b.constraints.getLast? with
  | none => b
  | some lastConstraint =>
      if strIncludes lastConstraint "REFERENCES" then
        { b with constraints :=
            b.constraints.dropLast ++ [lastConstraint ++ " ON DELETE " ++ action] }
      else b

/-- `onUpdate(action)`: amends the last constraint only when it contains
`REFERENCES`. -/
def TableBuilder.onUpdate (b : TableBuilder) (action : String) : TableBuilder :=
  match b.constraints.getLast? with
  | none => b
  | some lastConstraint =>
      if strIncludes lastConstraint "REFERENCES" then
        { b with constraints :=
            b.constraints.dropLast ++ [lastConstraint ++ " ON UPDATE " ++ action] }
      else b

/-- `build()`: render each column as `name type` plus its modifiers in
list (= call) order; constraints are returned as accumulated (the source
copies the array with a spread). -/
def TableBuilder.build (b : TableBuilder) : TableBuilderResult :=
  { columns := b.columns.map fun col =>
      let definition := col.name ++ " " ++ col.type
      if col.modifiers.length > 0 then definition ++ " " ++ joinSep " " col.modifiers
      else definition,
    constraints := b.constraints }

/-- SQL statements issued by `transaction` against the underlying
engine. -/
inductive TxStmt
  | beginTx (isolation : String)
  | commit
  | rollback
deriving DecidableEq

/-- Environment for a single `transaction(callback, options)` run on a
connected facade: what each engine call and the callback would do.
`some e` in a result field means that step throws `e`. -/
structure TxEnv (E A : Type) where
  beginResult : Option E
  callbackResult : Except E A
  commitResult : Option E
  rollbackResult : Option E

/-- The `catch` block of `transaction`: issue `ROLLBACK`; if the rollback
itself throws, that error propagates, otherwise the original error is
re-thrown. -/
def txCatch {E A : Type} (trace : List TxStmt) (e : E) (env : TxEnv E A) :
    List TxStmt × Except E A :=
  match env.rollbackResult with
  | some e2 => (trace ++ [TxStmt.rollback], Except.error e2)
  | none => (trace ++ [TxStmt.rollback], Except.error e)

/-- `transaction(callback, options)` (src/SQLiteTool.ts): begin with the
chosen isolation (default `DEFERRED`), run the callback, commit, and on
any throw run the catch block.  Returns the list of issued transaction
statements and the outcome. -/
def transaction {E A : Type} (isolationOpt : Option String) (env : TxEnv E A) :
    List TxStmt × Except E A :=
  let isolation := isolationOpt.getD "DEFERRED"
  match env.beginResult with
  | some e => txCatch [TxStmt.beginTx isolation] e env
  | none =>
    match env.callbackResult with
    | Except.error e => txCatch [TxStmt.beginTx isolation] e env
    | Except.ok result =>
      match env.commitResult with
      | some e => txCatch [TxStmt.beginTx isolation, TxStmt.commit] e env
      | none => ([TxStmt.beginTx isolation, TxStmt.commit], Except.ok result)

/-- The pagination summary object returned by `findPaginated`. -/
structure PaginationMeta where
  page : Nat
  limit : Nat
  total : Nat
  totalPages : Int
  hasNext : Bool
  hasPrev : Bool
deriving DecidableEq

/-- The pagination summary computed by `findPaginated` from the counted
`total` and the requested `page`/`limit`: `totalPages` is
`Math.ceil(total / limit)` (exact rational division), `hasNext` is
`page < totalPages`, `hasPrev` is `page > 1`. -/
def findPaginatedMeta (total page limit : Nat) : PaginationMeta :=
  let totalPages : Int := ⌈(total : ℚ) / (limit : ℚ)⌉
  { page := page, limit := limit, total := total, totalPages := totalPages,
    hasNext := decide ((page : Int) < totalPages), hasPrev := decide (1 < page) }

/-- One translated `find` condition value: an array (`whereIn`), an
`{operator, value}` object (`where` with that operator), or a plain value
(`where` with `=`). -/
inductive CondVal
  | arr (values : List JSVal)
  | withOp (operator : String) (value : JSVal)
  | plain (v : JSVal)
deriving DecidableEq

/-- The option bag accepted by `find` (types.ts `FindOptions`), with
`string | string[]` fields as `StrOrList`. -/
structure FindOptions where
  columns : Option (List String) := none
  limit : Option Int := none
  offset : Option Int := none
  orderBy : Option StrOrList := none
  direction : Option String := none
  groupBy : Option StrOrList := none
  having : Option String := none
deriving DecidableEq

/-- JavaScript truthiness of a present `string | string[]` option: the
empty string is falsy, every array is truthy. -/
def StrOrList.truthy : StrOrList → Bool
  | .one s => s ≠ ""
  | .many _ => true

/-- One step of the condition-translation loop shared by `find` and
`count`: an array goes to `whereIn`, an `{operator, value}` object to
`where` with that operator, anything else to `where` with `=`. -/
def condApply (qb : QueryBuilder) (kv : String × CondVal) : QueryBuilder :=
  match kv.2 with
  | CondVal.arr values => qb.whereIn kv.1 values
  | CondVal.withOp operator value => qb.where' kv.1 operator value
  | CondVal.plain v => qb.where' kv.1 "=" v

/-- The `for (const [key, value] of Object.entries(conditions))` loop of
`find`/`count`. -/
def applyConditions (qb : QueryBuilder) (conditions : List (String × CondVal)) :
    QueryBuilder :=
  conditions.foldl condApply qb

/-- `if (options.columns) queryBuilder.select(options.columns)`. -/
def findColumnsStage (options : FindOptions) (qb : QueryBuilder) : QueryBuilder :=
  match options.columns with
  | some cols => qb.select cols
  | none => qb

/-- `if (options.orderBy) { ... }`: empty-string orderBy is falsy and
skipped; a missing direction takes the `'ASC'` default. -/
def findOrderStage (options : FindOptions) (qb : QueryBuilder) : QueryBuilder :=
  match options.orderBy with
  | some ob => if ob.truthy then qb.orderBy ob.render (options.direction.getD "ASC") else qb
  | none => qb

/-- `if (options.limit) { queryBuilder.limit(...); if (options.offset)
queryBuilder.offset(...); }`: the OFFSET branch is nested inside the
LIMIT branch, and both guards are JavaScript truthiness (`0` is falsy). -/
def findLimitStage (options : FindOptions) (qb : QueryBuilder) : QueryBuilder :=
  match options.limit with
  | some n =>
      if n ≠ 0 then
        let qb := qb.limit n
        match options.offset with
        | some m => if m ≠ 0 then qb.offset m else qb
        | none => qb
      else qb
  | none => qb

/-- `if (options.groupBy) queryBuilder.groupBy(options.groupBy)`. -/
def findGroupStage (options : FindOptions) (qb : QueryBuilder) : QueryBuilder :=
  match options.groupBy with
  | some g => if g.truthy then qb.groupBy g else qb
  | none => qb

/-- `if (options.having) queryBuilder.having(options.having)`. -/
def findHavingStage (options : FindOptions) (qb : QueryBuilder) : QueryBuilder :=
  match options.having with
  | some h => if h ≠ "" then qb.having h else qb
  | none => qb

/-- The query `find(tableName, conditions, options)` builds before
executing it (src/SQLiteTool.ts lines 280–322): columns, condition
translation, ORDER BY, then LIMIT with OFFSET nested under it, then
GROUP BY and HAVING, in the source's statement order. -/
def buildFindQuery (tableName : String) (conditions : List (String × CondVal))
    (options : FindOptions) : QueryBuilder :=
  findHavingStage options
    (findGroupStage options
      (findLimitStage options
        (findOrderStage options
          (applyConditions (findColumnsStage options (QueryBuilder.init tableName))
            conditions))))

/-- A sequence of `where(column, operator, value)` calls applied in
order. -/
def applyWheres (b : QueryBuilder) (ws : List (String × String × JSVal)) : QueryBuilder :=
  ws.foldl (fun b w => b.where' w.1 w.2.1 w.2.2) b

/-- The builder state seen by the caller after a method call that may
throw: the new state on success, the old state when the call threw (the
source methods throw before mutating anything). -/
def callKeeping (f : TableBuilder → Except String TableBuilder) (b : TableBuilder) :
    TableBuilder :=
  match f b with
  | Except.ok b2 => b2
  | Except.error _ => b

/-- A clause string as a list entry: absent when empty. -/
def optClause (s : String) : List String := if s ≠ "" then [s] else []

section Lemmas

/-- `joinSep` over a two-or-more element list seen from the front. -/
theorem joinSep_cons_append (sep a b : String) (l : List String) :
    joinSep sep ((a ++ sep ++ b) :: l) = a ++ sep ++ joinSep sep (b :: l) := by
  cases l with
  | nil => simp [joinSep]
  | cons c t => simp [joinSep, String.append_assoc]

/-- Appending one element to a nonempty list appends `sep ++ x` to its
`joinSep`. -/
theorem joinSep_concat (sep : String) (l : List String) (x : String) (h : l ≠ []) :
    joinSep sep (l ++ [x]) = joinSep sep l ++ sep ++ x := by
  induction l with
  | nil => exact absurd rfl h
  | cons a t ih =>
      cases t with
      | nil => simp [joinSep]
      | cons b t2 =>
          have h2 := ih (by simp)
          simp only [List.cons_append, joinSep, List.append_eq] at h2 ⊢
          rw [h2]
          simp [String.append_assoc]

/-- Placeholder count distributes over string append. -/
theorem countQ_append (a b : String) : countQ (a ++ b) = countQ a + countQ b := by
  simp [countQ, String.data_append, List.count_append]

/-- Placeholder count of a `joinSep` by a placeholder-free separator is
the sum over the parts. -/
theorem countQ_joinSep (sep : String) (hsep : countQ sep = 0) (l : List String) :
    countQ (joinSep sep l) = (l.map countQ).sum := by
  induction l with
  | nil => simp [joinSep, countQ]
  | cons a t ih =>
      cases t with
      | nil => simp [joinSep]
      | cons b t2 =>
          simp only [joinSep, List.map_cons, List.sum_cons] at ih ⊢
          rw [countQ_append, countQ_append, hsep, ih]
          omega

/-- A string with no `'?'` character has placeholder count zero. -/
theorem countQ_eq_zero_of_not_mem (s : String) (h : ¬ '?' ∈ s.data) : countQ s = 0 := by
  simp [countQ, List.count_eq_zero]
  exact h

/-- One conditional clause-append step of the SQL renderers: appending
`" " ++ t` to a string that is the space-join of a nonempty clause list
gives the space-join of the list with `t` appended. -/
theorem renderStep {s : String} {L : List String} (h : s = joinSep " " L) (hL : L ≠ [])
    (c : Prop) [Decidable c] (t : String) :
    (if c then s ++ " " ++ t else s) = joinSep " " (L ++ if c then [t] else []) ∧
      (L ++ (if c then [t] else [])) ≠ [] := by
  constructor
  · by_cases hc : c
    · rw [if_pos hc, if_pos hc, joinSep_concat _ _ _ hL, h]
    · rw [if_neg hc, if_neg hc, List.append_nil, h]
  · cases L with
    | nil => exact absurd rfl hL
    | cons a t2 => simp

/-- Splitting the literal `" WHERE "` off a clause append. -/
theorem append_WHERE_split (s j : String) :
    s ++ " WHERE " ++ j = s ++ " " ++ ("WHERE " ++ j) := by
  rw [String.append_assoc, String.append_assoc,
    show (" WHERE " : String) = " " ++ "WHERE " from by decide, String.append_assoc]

/-- A sequence of `where` calls appends one `column operator ?` fragment
and one value per call, in call order, and touches nothing else. -/
theorem applyWheres_state (ws : List (String × String × JSVal)) : ∀ b : QueryBuilder,
    applyWheres b ws =
      { b with
        whereConditions :=
          b.whereConditions ++ ws.map (fun w => w.1 ++ " " ++ w.2.1 ++ " ?"),
        whereValues := b.whereValues ++ ws.map (fun w => w.2.2) } := by
  induction ws with
  | nil => intro b; simp [applyWheres]
  | cons w t ih =>
      intro b
      have step : applyWheres b (w :: t) = applyWheres (b.where' w.1 w.2.1 w.2.2) t := rfl
      rw [step, ih]
      simp [QueryBuilder.where', List.append_assoc]

/-- Condition translation never touches the LIMIT/OFFSET clauses. -/
theorem condApply_preserves (qb : QueryBuilder) (kv : String × CondVal) :
    (condApply qb kv).limitClause = qb.limitClause ∧
    (condApply qb kv).offsetClause = qb.offsetClause := by
  rcases kv with ⟨k, cv⟩
  cases cv with
  | arr values =>
      by_cases hv : values.length = 0 <;> simp [condApply, QueryBuilder.whereIn, hv]
  | withOp operator value => exact ⟨rfl, rfl⟩
  | plain v => exact ⟨rfl, rfl⟩

/-- The condition loop never touches the LIMIT/OFFSET clauses. -/
theorem applyConditions_preserves (conditions : List (String × CondVal)) :
    ∀ qb : QueryBuilder,
    (applyConditions qb conditions).limitClause = qb.limitClause ∧
    (applyConditions qb conditions).offsetClause = qb.offsetClause := by
  induction conditions with
  | nil => intro qb; exact ⟨rfl, rfl⟩
  | cons kv t ih =>
      intro qb
      have h1 := condApply_preserves qb kv
      have h2 := ih (condApply qb kv)
      exact ⟨h2.1.trans h1.1, h2.2.trans h1.2⟩

/-- The columns stage never touches the LIMIT/OFFSET clauses. -/
theorem findColumnsStage_preserves (options : FindOptions) (qb : QueryBuilder) :
    (findColumnsStage options qb).limitClause = qb.limitClause ∧
    (findColumnsStage options qb).offsetClause = qb.offsetClause := by
  cases h : options.columns <;> simp [findColumnsStage, h, QueryBuilder.select]

/-- The ORDER BY stage never touches the LIMIT/OFFSET clauses. -/
theorem findOrderStage_preserves (options : FindOptions) (qb : QueryBuilder) :
    (findOrderStage options qb).limitClause = qb.limitClause ∧
    (findOrderStage options qb).offsetClause = qb.offsetClause := by
  cases h : options.orderBy with
  | none => simp [findOrderStage, h]
  | some ob =>
      by_cases ht : ob.truthy = true <;>
        simp [findOrderStage, h, ht, QueryBuilder.orderBy]

/-- The GROUP BY stage never touches the LIMIT/OFFSET clauses. -/
theorem findGroupStage_preserves (options : FindOptions) (qb : QueryBuilder) :
    (findGroupStage options qb).limitClause = qb.limitClause ∧
    (findGroupStage options qb).offsetClause = qb.offsetClause := by
  cases h : options.groupBy with
  | none => simp [findGroupStage, h]
  | some g =>
      by_cases ht : g.truthy = true <;> simp [findGroupStage, h, ht, QueryBuilder.groupBy]

/-- The HAVING stage never touches the LIMIT/OFFSET clauses. -/
theorem findHavingStage_preserves (options : FindOptions) (qb : QueryBuilder) :
    (findHavingStage options qb).limitClause = qb.limitClause ∧
    (findHavingStage options qb).offsetClause = qb.offsetClause := by
  cases h : options.having with
  | none => simp [findHavingStage, h]
  | some hv =>
      by_cases ht : hv ≠ "" <;> simp [findHavingStage, h, ht, QueryBuilder.having]

/-- A falsy `options.limit` makes the LIMIT/OFFSET stage a no-op. -/
theorem findLimitStage_skip (options : FindOptions) (qb : QueryBuilder)
    (h : options.limit = none ∨ options.limit = some 0) :
    findLimitStage options qb = qb := by
  rcases h with h | h <;> simp [findLimitStage, h]

/-- Summing a function that is `1` on every element counts the
elements. -/
theorem sum_map_one {α : Type} (l : List α) (f : α → Nat) (h : ∀ a ∈ l, f a = 1) :
    (l.map f).sum = l.length := by
  induction l with
  | nil => simp
  | cons a t ih =>
      simp only [List.map_cons, List.sum_cons, List.length_cons, h a (by simp)]
      rw [ih fun x hx => h x (by simp [hx])]
      omega

end Lemmas

/-- C3: for every column name, `whereIn(column, [])` appends exactly the
predicate fragment `1 = 0` and no parameter values, while
`whereNotIn(column, [])` leaves the builder (predicates and parameters)
completely unchanged. -/
theorem claim_C3_empty_in_lists (b : QueryBuilder) (column : String) :
    b.whereIn column [] = { b with whereConditions := b.whereConditions ++ ["1 = 0"] } ∧
    (b.whereIn column []).whereValues = b.whereValues ∧
    b.whereNotIn column [] = b :=
  ⟨rfl, rfl, rfl⟩

/-- C2: `orWhere` with at least one accumulated predicate pops the last
fragment and replaces it by `last ++ " OR " ++ column operator ?`, pushing
the value; with no prior predicate it coincides with `where`; and
`where('age','>',18)` followed by `orWhere('status','=',·)` yields the
fragment `age > ? OR status = ?`. -/
theorem claim_C2_orWhere_binds_last (b : QueryBuilder) (column operator : String)
    (value : JSVal) :
    (∀ rest last, b.whereConditions = rest ++ [last] →
      b.orWhere column operator value =
        { b with
          whereConditions :=
            rest ++ [last ++ " OR " ++ column ++ " " ++ operator ++ " ?"],
          whereValues := b.whereValues ++ [value] }) ∧
    (b.whereConditions = [] →
      b.orWhere column operator value = b.where' column operator value) ∧
    ((QueryBuilder.where' (QueryBuilder.init "users") "age" ">" (JSVal.vInt 18)).orWhere
        "status" "=" value).whereConditions = ["age > ? OR status = ?"] := by
  refine ⟨?_, ?_, ?_⟩
  · intro rest last h
    simp only [QueryBuilder.orWhere, h, List.getLast?_concat, List.dropLast_concat]
  · intro h
    simp [QueryBuilder.orWhere, QueryBuilder.where', h]
  · rfl

/-- Witness for C2 at a concrete builder state. -/
theorem claim_C2_orWhere_binds_last_witness :
    ((QueryBuilder.where' (QueryBuilder.init "users") "age" ">" (JSVal.vInt 18)).orWhere
        "status" "=" (JSVal.vStr "active")).whereConditions = ["age > ? OR status = ?"] := by
  have h := (claim_C2_orWhere_binds_last
      (QueryBuilder.where' (QueryBuilder.init "users") "age" ">" (JSVal.vInt 18))
      "status" "=" (JSVal.vStr "active")).1 [] "age > ?" (by decide)
  rw [h]
  decide

/-- C6: `build()` renders every column as `name TYPE` followed by that
column's modifiers in call order, reads the builder state without
modifying it (it is a pure function of the state here, as the source
method only reads fields), and calling it twice returns equal results. -/
theorem claim_C6_build_rendering (b : TableBuilder) :
    (b.build).columns = b.columns.map (fun col =>
        col.name ++ " " ++ col.type ++
          (if col.modifiers = [] then "" else " " ++ joinSep " " col.modifiers)) ∧
    (b.build).constraints = b.constraints ∧
    b.build = b.build := by
  refine ⟨?_, rfl, rfl⟩
  simp only [TableBuilder.build]
  refine List.map_congr_left fun col _ => ?_
  cases hm : col.modifiers with
  | nil => simp [hm]
  | cons m t => simp [hm, String.append_assoc]

/-- C7: on a freshly constructed table builder with no column declared,
each of the seven column-modifier methods fails with the State error
`No column selected. Call a column type method first.` and the caller's
builder state is unchanged. -/
theorem claim_C7_modifier_without_column (n : String) (v : JSVal) (e c : String) :
    ((TableBuilder.init n).primaryKey =
        Except.error "No column selected. Call a column type method first." ∧
      callKeeping TableBuilder.primaryKey (TableBuilder.init n) = TableBuilder.init n) ∧
    ((TableBuilder.init n).autoIncrement =
        Except.error "No column selected. Call a column type method first." ∧
      callKeeping TableBuilder.autoIncrement (TableBuilder.init n) = TableBuilder.init n) ∧
    ((TableBuilder.init n).notNull =
        Except.error "No column selected. Call a column type method first." ∧
      callKeeping TableBuilder.notNull (TableBuilder.init n) = TableBuilder.init n) ∧
    ((TableBuilder.init n).unique =
        Except.error "No column selected. Call a column type method first." ∧
      callKeeping TableBuilder.unique (TableBuilder.init n) = TableBuilder.init n) ∧
    ((TableBuilder.init n).default v =
        Except.error "No column selected. Call a column type method first." ∧
      callKeeping (fun b => b.default v) (TableBuilder.init n) = TableBuilder.init n) ∧
    ((TableBuilder.init n).check e =
        Except.error "No column selected. Call a column type method first." ∧
      callKeeping (fun b => b.check e) (TableBuilder.init n) = TableBuilder.init n) ∧
    ((TableBuilder.init n).collate c =
        Except.error "No column selected. Call a column type method first." ∧
      callKeeping (fun b => b.collate c) (TableBuilder.init n) = TableBuilder.init n) :=
  ⟨⟨rfl, rfl⟩, ⟨rfl, rfl⟩, ⟨rfl, rfl⟩, ⟨rfl, rfl⟩, ⟨rfl, rfl⟩, ⟨rfl, rfl⟩, ⟨rfl, rfl⟩⟩

/-- C8: `references` amends the last constraint only when it starts with
`FOREIGN KEY`; `onDelete`/`onUpdate` amend it only when it contains
`REFERENCES`; when the guard fails — including an out-of-order call or no
constraint at all — the call returns normally and leaves the constraint
list unchanged (these methods are total, mirroring the throw-free
source). -/
theorem claim_C8_foreign_key_guards (b : TableBuilder) (tableColumn action : String) :
    (b.constraints = [] →
      b.references tableColumn = b ∧ b.onDelete action = b ∧ b.onUpdate action = b) ∧
    (∀ rest last, b.constraints = rest ++ [last] →
      (strStartsWith last "FOREIGN KEY" = false → b.references tableColumn = b) ∧
      (strStartsWith last "FOREIGN KEY" = true →
        ∃ t c, (b.references tableColumn).constraints =
          rest ++ [last ++ " REFERENCES " ++ t ++ "(" ++ c ++ ")"]) ∧
      (strIncludes last "REFERENCES" = false →
        b.onDelete action = b ∧ b.onUpdate action = b) ∧
      (strIncludes last "REFERENCES" = true →
        (b.onDelete action).constraints = rest ++ [last ++ " ON DELETE " ++ action] ∧
        (b.onUpdate action).constraints = rest ++ [last ++ " ON UPDATE " ++ action])) ∧
    ((TableBuilder.init "t").foreignKey "uid").onDelete action =
      (TableBuilder.init "t").foreignKey "uid" := by
  refine ⟨?_, ?_, ?_⟩
  · intro h
    simp [TableBuilder.references, TableBuilder.onDelete, TableBuilder.onUpdate, h]
  · intro rest last h
    refine ⟨?_, ?_, ?_, ?_⟩
    · intro hg
      simp [TableBuilder.references, h, List.getLast?_concat, List.dropLast_concat, hg]
    · intro hg
      simp only [TableBuilder.references, h, List.getLast?_concat, List.dropLast_concat, hg,
        if_true]
      exact ⟨_, _, rfl⟩
    · intro hg
      constructor
      · simp [TableBuilder.onDelete, h, List.getLast?_concat, List.dropLast_concat, hg]
      · simp [TableBuilder.onUpdate, h, List.getLast?_concat, List.dropLast_concat, hg]
    · intro hg
      constructor
      · simp [TableBuilder.onDelete, h, List.getLast?_concat, List.dropLast_concat, hg]
      · simp [TableBuilder.onUpdate, h, List.getLast?_concat, List.dropLast_concat, hg]
  · rfl

/-- Witness for C8 at concrete builder states: a correctly ordered
foreignKey → references → onDelete chain amends the constraint, and the
out-of-order onDelete is a no-op. -/
theorem claim_C8_foreign_key_guards_witness :
    ((((TableBuilder.init "t").foreignKey "uid").references "users.id").onDelete
        "CASCADE").constraints =
      ["FOREIGN KEY (uid) REFERENCES users(id) ON DELETE CASCADE"] ∧
    ((TableBuilder.init "t").foreignKey "uid").onDelete "CASCADE" =
      (TableBuilder.init "t").foreignKey "uid" := by
  constructor
  · have h := ((claim_C8_foreign_key_guards
        (((TableBuilder.init "t").foreignKey "uid").references "users.id") "x" "CASCADE").2.1
        [] "FOREIGN KEY (uid) REFERENCES users(id)" (by decide)).2.2.2 (by decide)
    rw [h.1]
    decide
  · exact (claim_C8_foreign_key_guards ((TableBuilder.init "t").foreignKey "uid") "x"
      "CASCADE").2.2

/-- C5: on a connected facade, `transaction` begins with the chosen
isolation (default DEFERRED); when BEGIN, the callback and COMMIT all
succeed it issues COMMIT and returns the callback's result; when the
callback or BEGIN or COMMIT throws it issues ROLLBACK and re-raises the
original error; and when that ROLLBACK itself throws, the rollback
failure propagates instead of the original error. -/
theorem claim_C5_transaction_control_flow {E A : Type} (isolationOpt : Option String)
    (env : TxEnv E A) :
    (∀ a, env.beginResult = none → env.callbackResult = Except.ok a →
      env.commitResult = none →
      transaction isolationOpt env =
        ([TxStmt.beginTx (isolationOpt.getD "DEFERRED"), TxStmt.commit], Except.ok a)) ∧
    (∀ e, env.beginResult = none → env.callbackResult = Except.error e →
      env.rollbackResult = none →
      transaction isolationOpt env =
        ([TxStmt.beginTx (isolationOpt.getD "DEFERRED"), TxStmt.rollback],
          Except.error e)) ∧
    (∀ e, env.beginResult = some e → env.rollbackResult = none →
      transaction isolationOpt env =
        ([TxStmt.beginTx (isolationOpt.getD "DEFERRED"), TxStmt.rollback],
          Except.error e)) ∧
    (∀ a e, env.beginResult = none → env.callbackResult = Except.ok a →
      env.commitResult = some e → env.rollbackResult = none →
      transaction isolationOpt env =
        ([TxStmt.beginTx (isolationOpt.getD "DEFERRED"), TxStmt.commit, TxStmt.rollback],
          Except.error e)) ∧
    (∀ e2, env.rollbackResult = some e2 →
      (env.beginResult ≠ none ∨ (∃ e, env.callbackResult = Except.error e) ∨
        env.commitResult ≠ none) →
      (transaction isolationOpt env).2 = Except.error e2) := by
  refine ⟨?_, ?_, ?_, ?_, ?_⟩
  · intro a h1 h2 h3
    simp [transaction, h1, h2, h3]
  · intro e h1 h2 h3
    simp [transaction, txCatch, h1, h2, h3]
  · intro e h1 h2
    simp [transaction, txCatch, h1, h2]
  · intro a e h1 h2 h3 h4
    simp [transaction, txCatch, h1, h2, h3, h4]
  · intro e2 hrb hfail
    rcases hb : env.beginResult with - | e
    · rcases hc : env.callbackResult with e | a
      · simp [transaction, txCatch, hb, hc, hrb]
      · rcases hm : env.commitResult with - | e
        · rcases hfail with h | h | h
          · exact absurd hb h
          · rcases h with ⟨e, he⟩
            rw [hc] at he
            exact absurd he (by simp)
          · exact absurd hm h
        · simp [transaction, txCatch, hb, hc, hm, hrb]
    · simp [transaction, txCatch, hb, hrb]

/-- Witness for C5 with a concrete environment: a failing callback whose
rollback succeeds re-raises the callback error after BEGIN/ROLLBACK, and
a failing callback whose rollback also fails propagates the rollback
error. -/
theorem claim_C5_transaction_control_flow_witness :
    transaction (E := String) (A := Nat) none
        { beginResult := none, callbackResult := Except.error "boom",
          commitResult := none, rollbackResult := none } =
      ([TxStmt.beginTx "DEFERRED", TxStmt.rollback], Except.error "boom") ∧
    (transaction (E := String) (A := Nat) (some "IMMEDIATE")
        { beginResult := none, callbackResult := Except.error "boom",
          commitResult := none, rollbackResult := some "rollback failed" }).2 =
      Except.error "rollback failed" := by
  constructor
  · exact (claim_C5_transaction_control_flow none _).2.1 "boom" rfl rfl rfl
  · exact (claim_C5_transaction_control_flow (some "IMMEDIATE") _).2.2.2.2 "rollback failed"
      rfl (Or.inr (Or.inl ⟨"boom", rfl⟩))

/-- C4 counterexample: the claim says `toCountSQL()` renders
`SELECT COUNT(*) AS count FROM table`, but the source writes the keyword
in lowercase: `SELECT COUNT(*) as count FROM table`. -/
theorem claim_C4_counterexample :
    ((QueryBuilder.init "t").toCountSQL).sql = "SELECT COUNT(*) as count FROM t" ∧
    ((QueryBuilder.init "t").toCountSQL).sql ≠ "SELECT COUNT(*) AS count FROM t" := by
  constructor
  · rfl
  · decide

/-- C4 (amended: the COUNT projection reads `as count`, lowercase):
`toSQL()` renders exactly SELECT [DISTINCT] columns, FROM table, JOINs,
WHERE, GROUP BY, HAVING, ORDER BY, LIMIT, OFFSET in that order with the
present clauses space-separated; `toCountSQL()` renders
`SELECT COUNT(*) as count FROM table` then JOINs, WHERE, GROUP BY,
HAVING, omitting projection, ORDER BY, LIMIT and OFFSET; both return the
accumulated parameter list (the source's array spread copies it
element-wise, which in this embedding is the list itself, so the builder
state is unaffected by anything done to the returned copy). -/
theorem claim_C4_clause_order (b : QueryBuilder) :
    (b.toSQL).sql =
      joinSep " "
        (["SELECT " ++ (if b.distinctFlag then "DISTINCT " else "") ++
            joinSep ", " b.selectColumns ++ " FROM " ++ b.tableName] ++
          (if b.joins.length > 0 then [joinSep " " b.joins] else []) ++
          (if b.whereConditions.length > 0 then
            ["WHERE " ++ joinSep " AND " b.whereConditions] else []) ++
          optClause b.groupByClause ++ optClause b.havingClause ++
          optClause b.orderByClause ++ optClause b.limitClause ++
          optClause b.offsetClause) ∧
    (b.toCountSQL).sql =
      joinSep " "
        (["SELECT COUNT(*) as count FROM " ++ b.tableName] ++
          (if b.joins.length > 0 then [joinSep " " b.joins] else []) ++
          (if b.whereConditions.length > 0 then
            ["WHERE " ++ joinSep " AND " b.whereConditions] else []) ++
          optClause b.groupByClause ++ optClause b.havingClause) ∧
    (b.toSQL).values = b.whereValues ∧
    (b.toCountSQL).values = b.whereValues := by
  refine ⟨?_, ?_, rfl, rfl⟩
  · have hhead : (if b.distinctFlag then "SELECT " ++ "DISTINCT " else "SELECT ") ++
        joinSep ", " b.selectColumns ++ " FROM " ++ b.tableName =
        "SELECT " ++ (if b.distinctFlag then "DISTINCT " else "") ++
          joinSep ", " b.selectColumns ++ " FROM " ++ b.tableName := by
      cases hb : b.distinctFlag <;> simp [String.append_assoc, String.empty_append]
    simp only [QueryBuilder.toSQL, optClause]
    rw [hhead, append_WHERE_split]
    have s1 := renderStep
        (s := "SELECT " ++ (if b.distinctFlag then "DISTINCT " else "") ++
          joinSep ", " b.selectColumns ++ " FROM " ++ b.tableName)
        (L := ["SELECT " ++ (if b.distinctFlag then "DISTINCT " else "") ++
          joinSep ", " b.selectColumns ++ " FROM " ++ b.tableName])
        rfl (by simp) (b.joins.length > 0) (joinSep " " b.joins)
    rw [s1.1]
    have s2 := renderStep rfl s1.2 (b.whereConditions.length > 0)
        ("WHERE " ++ joinSep " AND " b.whereConditions)
    rw [s2.1]
    have s3 := renderStep rfl s2.2 (b.groupByClause ≠ "") b.groupByClause
    rw [s3.1]
    have s4 := renderStep rfl s3.2 (b.havingClause ≠ "") b.havingClause
    rw [s4.1]
    have s5 := renderStep rfl s4.2 (b.orderByClause ≠ "") b.orderByClause
    rw [s5.1]
    have s6 := renderStep rfl s5.2 (b.limitClause ≠ "") b.limitClause
    rw [s6.1]
    have s7 := renderStep rfl s6.2 (b.offsetClause ≠ "") b.offsetClause
    rw [s7.1]
  · simp only [QueryBuilder.toCountSQL, optClause]
    rw [append_WHERE_split]
    have s1 := renderStep
        (s := "SELECT COUNT(*) as count FROM " ++ b.tableName)
        (L := ["SELECT COUNT(*) as count FROM " ++ b.tableName])
        rfl (by simp) (b.joins.length > 0) (joinSep " " b.joins)
    rw [s1.1]
    have s2 := renderStep rfl s1.2 (b.whereConditions.length > 0)
        ("WHERE " ++ joinSep " AND " b.whereConditions)
    rw [s2.1]
    have s3 := renderStep rfl s2.2 (b.groupByClause ≠ "") b.groupByClause
    rw [s3.1]
    have s4 := renderStep rfl s3.2 (b.havingClause ≠ "") b.havingClause
    rw [s4.1]

/-- C1 counterexample: the claim restricts only column names and
operators, but a `?` in the builder's table name already misaligns the
counts with no `where` calls at all: the rendered SQL has one `?` and the
value list is empty. -/
theorem claim_C1_counterexample :
    ((applyWheres (QueryBuilder.init "?") []).toSQL).values.length = 0 ∧
    countQ ((applyWheres (QueryBuilder.init "?") []).toSQL).sql = 1 := by
  constructor
  · rfl
  · decide

/-- C1 (amended: the table name must also contain no `?`): for every
sequence of `where(column, operator, value)` calls on a fresh builder
whose table name, column names and operators contain no `?`, the number
of values in `toSQL()` equals the number of `?` placeholders in the SQL,
the values are exactly the call values in call order, and the predicate
fragments are the calls' fragments in the same call order (so the i-th
value belongs to the i-th placeholder). -/
theorem claim_C1_placeholder_value_alignment (tableName : String)
    (ws : List (String × String × JSVal))
    (ht : ¬ '?' ∈ tableName.data)
    (hw : ∀ w ∈ ws, ¬ '?' ∈ (w.1 : String).data ∧ ¬ '?' ∈ (w.2.1 : String).data) :
    countQ ((applyWheres (QueryBuilder.init tableName) ws).toSQL).sql =
      ((applyWheres (QueryBuilder.init tableName) ws).toSQL).values.length ∧
    ((applyWheres (QueryBuilder.init tableName) ws).toSQL).values =
      ws.map (fun w => w.2.2) ∧
    (applyWheres (QueryBuilder.init tableName) ws).whereConditions =
      ws.map (fun w => w.1 ++ " " ++ w.2.1 ++ " ?") := by
  have hstate := applyWheres_state ws (QueryBuilder.init tableName)
  have ht0 : countQ tableName = 0 := countQ_eq_zero_of_not_mem _ ht
  have hfrag : ∀ x ∈ ws, countQ (x.1 ++ " " ++ x.2.1 ++ " ?") = 1 := by
    intro x hx
    rcases hw x hx with ⟨h1, h2⟩
    rw [countQ_append, countQ_append, countQ_append,
      countQ_eq_zero_of_not_mem _ h1, countQ_eq_zero_of_not_mem _ h2,
      show countQ " " = 0 from by decide, show countQ " ?" = 1 from by decide]
  refine ⟨?_, ?_, ?_⟩
  · rw [hstate]
    by_cases hc : (ws.map (fun w => w.1 ++ " " ++ w.2.1 ++ " ?")).length > 0
    · simp only [QueryBuilder.toSQL, QueryBuilder.init, List.nil_append]
      simp [hc, joinSep]
      have hc2 : 0 < ws.length := by simpa using hc
      rw [if_pos hc2, countQ_append, countQ_append, countQ_append,
        countQ_joinSep " AND " (by decide), ht0, List.map_map,
        sum_map_one ws (countQ ∘ fun w => w.1 ++ " " ++ w.2.1 ++ " ?") hfrag,
        show countQ "SELECT * FROM " = 0 from by decide,
        show countQ " WHERE " = 0 from by decide]
      simp
    · have hws : ws = [] := by
        cases ws with
        | nil => rfl
        | cons w t => simp at hc
      subst hws
      simp only [QueryBuilder.toSQL, QueryBuilder.init, List.map_nil, List.append_nil,
        List.nil_append]
      simp [joinSep]
      rw [countQ_append, ht0]
      decide
  · rw [hstate]
    simp [QueryBuilder.toSQL, QueryBuilder.init]
  · rw [hstate]
    simp [QueryBuilder.init]

/-- Witness for C1 at two concrete `where` calls. -/
theorem claim_C1_placeholder_value_alignment_witness :
    countQ ((applyWheres (QueryBuilder.init "users")
        [("age", ">", JSVal.vInt 18), ("status", "=", JSVal.vStr "active")]).toSQL).sql =
      ((applyWheres (QueryBuilder.init "users")
        [("age", ">", JSVal.vInt 18), ("status", "=", JSVal.vStr "active")]).toSQL).values.length ∧
    ((applyWheres (QueryBuilder.init "users")
        [("age", ">", JSVal.vInt 18), ("status", "=", JSVal.vStr "active")]).toSQL).values =
      [JSVal.vInt 18, JSVal.vStr "active"] := by
  have h := claim_C1_placeholder_value_alignment "users"
      [("age", ">", JSVal.vInt 18), ("status", "=", JSVal.vStr "active")]
      (by decide) (by decide)
  exact ⟨h.1, h.2.1⟩

/-- C9: for every total ≥ 0 and limit > 0, the pagination summary
satisfies `totalPages = ⌈total/limit⌉` (equal to the natural ceiling
division `(total + limit - 1) / limit`), `hasNext = (page < totalPages)`,
`hasPrev = (page > 1)`, echoes back page/limit/total unchanged, and on
total 25, page 2, limit 10 yields totalPages 3, hasNext and hasPrev
true. -/
theorem claim_C9_pagination_summary (total page limit : Nat) (h : 0 < limit) :
    (findPaginatedMeta total page limit).totalPages =
      ((total + limit - 1) / limit : Nat) ∧
    (findPaginatedMeta total page limit).hasNext =
      decide (page < (total + limit - 1) / limit) ∧
    (findPaginatedMeta total page limit).hasPrev = decide (1 < page) ∧
    (findPaginatedMeta total page limit).page = page ∧
    (findPaginatedMeta total page limit).limit = limit ∧
    (findPaginatedMeta total page limit).total = total ∧
    findPaginatedMeta 25 2 10 =
      { page := 2, limit := 10, total := 25, totalPages := 3, hasNext := true,
        hasPrev := true } := by
  have hb : (0 : ℚ) < limit := by exact_mod_cast h
  have hceil : (⌈(total : ℚ) / (limit : ℚ)⌉ : ℤ) = ((total + limit - 1) / limit : Nat) := by
    rw [Int.ceil_eq_iff]
    have h1 : total ≤ ((total + limit - 1) / limit) * limit := by
      by_contra hc
      push_neg at hc
      have h3 : ((total + limit - 1) / limit) + 1 ≤ (total + limit - 1) / limit := by
        rw [Nat.le_div_iff_mul_le h]
        have h5 : ((total + limit - 1) / limit + 1) * limit =
            (total + limit - 1) / limit * limit + limit := by ring
        omega
      omega
    have h2 : ((total + limit - 1) / limit) * limit ≤ total + limit - 1 :=
      Nat.div_mul_le_self _ _
    constructor
    · rw [sub_lt_iff_lt_add,
        show (total : ℚ) / limit + 1 = (total + limit) / limit from by field_simp,
        lt_div_iff₀ hb]
      exact_mod_cast (by omega : ((total + limit - 1) / limit) * limit < total + limit)
    · rw [div_le_iff₀ hb]
      exact_mod_cast h1
  refine ⟨hceil, ?_, rfl, rfl, rfl, rfl, ?_⟩
  · show decide ((page : ℤ) < ⌈(total : ℚ) / (limit : ℚ)⌉) = _
    rw [decide_eq_decide, hceil]
    exact_mod_cast Iff.rfl
  · have hceil25 : (⌈(25 : ℚ) / (10 : ℚ)⌉ : ℤ) = 3 := by norm_num [Int.ceil_eq_iff]
    simp [findPaginatedMeta, hceil25]

/-- Witness for C9 at total 25, page 2, limit 10. -/
theorem claim_C9_pagination_summary_witness :
    findPaginatedMeta 25 2 10 =
      { page := 2, limit := 10, total := 25, totalPages := 3, hasNext := true,
        hasPrev := true } :=
  (claim_C9_pagination_summary 25 2 10 (by decide)).2.2.2.2.2.2

/-- C10: in the query built by `find`, OFFSET is applied only when
`options.limit` is present and truthy; with `limit` absent or `0`, any
`offset` is silently ignored — the built query equals the one built with
no limit/offset options at all and carries empty LIMIT/OFFSET clauses
(so `toSQL` appends neither) — while a truthy limit plus truthy offset
sets both clauses. -/
theorem claim_C10_offset_requires_limit (tableName : String)
    (conditions : List (String × CondVal)) (options : FindOptions) :
    ((options.limit = none ∨ options.limit = some 0) →
      (buildFindQuery tableName conditions options).limitClause = "" ∧
      (buildFindQuery tableName conditions options).offsetClause = "" ∧
      buildFindQuery tableName conditions options =
        buildFindQuery tableName conditions
          { options with limit := none, offset := none }) ∧
    (∀ n m, options.limit = some n → n ≠ 0 → options.offset = some m → m ≠ 0 →
      (buildFindQuery tableName conditions options).limitClause =
        "LIMIT " ++ toString n ∧
      (buildFindQuery tableName conditions options).offsetClause =
        "OFFSET " ++ toString m) := by
  constructor
  · intro h
    have hskip : ∀ qb, findLimitStage options qb = qb := fun qb =>
      findLimitStage_skip options qb h
    have base := applyConditions_preserves conditions
        (findColumnsStage options (QueryBuilder.init tableName))
    have hcol := findColumnsStage_preserves options (QueryBuilder.init tableName)
    have hord := findOrderStage_preserves options
        (applyConditions (findColumnsStage options (QueryBuilder.init tableName))
          conditions)
    refine ⟨?_, ?_, ?_⟩
    · show (findHavingStage options (findGroupStage options (findLimitStage options
          (findOrderStage options (applyConditions
            (findColumnsStage options (QueryBuilder.init tableName))
            conditions))))).limitClause = ""
      rw [(findHavingStage_preserves options _).1, (findGroupStage_preserves options _).1,
        hskip, hord.1, base.1, hcol.1]
      rfl
    · show (findHavingStage options (findGroupStage options (findLimitStage options
          (findOrderStage options (applyConditions
            (findColumnsStage options (QueryBuilder.init tableName))
            conditions))))).offsetClause = ""
      rw [(findHavingStage_preserves options _).2, (findGroupStage_preserves options _).2,
        hskip, hord.2, base.2, hcol.2]
      rfl
    · rcases options with ⟨c, l, o, ob, d, g, hv⟩
      rcases h with h | h <;>
        simp_all [buildFindQuery, findColumnsStage, findOrderStage, findLimitStage,
          findGroupStage, findHavingStage]
  · intro n m hn hn0 hm hm0
    have hset : ∀ qb : QueryBuilder, findLimitStage options qb = (qb.limit n).offset m := by
      intro qb
      simp [findLimitStage, hn, hn0, hm, hm0]
    constructor
    · show (findHavingStage options (findGroupStage options (findLimitStage options
          (findOrderStage options (applyConditions
            (findColumnsStage options (QueryBuilder.init tableName))
            conditions))))).limitClause = "LIMIT " ++ toString n
      rw [(findHavingStage_preserves options _).1, (findGroupStage_preserves options _).1,
        hset]
      rfl
    · show (findHavingStage options (findGroupStage options (findLimitStage options
          (findOrderStage options (applyConditions
            (findColumnsStage options (QueryBuilder.init tableName))
            conditions))))).offsetClause = "OFFSET " ++ toString m
      rw [(findHavingStage_preserves options _).2, (findGroupStage_preserves options _).2,
        hset]
      rfl

/-- Witness for C10: a concrete `find` call with an offset but limit 0
builds the same query as one with no offset, and a call with both truthy
sets both clauses. -/
theorem claim_C10_offset_requires_limit_witness :
    buildFindQuery "users" [("active", CondVal.plain (JSVal.vInt 1))]
        { limit := some 0, offset := some 40 } =
      buildFindQuery "users" [("active", CondVal.plain (JSVal.vInt 1))]
        { limit := none, offset := none } ∧
    (buildFindQuery "users" [] { limit := some 10, offset := some 40 }).limitClause =
      "LIMIT 10" ∧
    (buildFindQuery "users" [] { limit := some 10, offset := some 40 }).offsetClause =
      "OFFSET 40" := by
  refine ⟨?_, ?_, ?_⟩
  · exact ((claim_C10_offset_requires_limit "users"
      [("active", CondVal.plain (JSVal.vInt 1))]
      { limit := some 0, offset := some 40 }).1 (Or.inr rfl)).2.2
  · exact ((claim_C10_offset_requires_limit "users" []
      { limit := some 10, offset := some 40 }).2 10 40 rfl (by decide) rfl (by decide)).1
  · exact ((claim_C10_offset_requires_limit "users" []
      { limit := some 10, offset := some 40 }).2 10 40 rfl (by decide) rfl (by decide)).2

end SQLiteTool
